import Mathlib

/-!
Shallow embedding of the anomaly-detection engine of the Hybrid-solar
backend (module `application/background/anomaly-detection.ts`, entities in
`infrastructure/entities/Anomaly.ts`).

Conventions of the embedding:
* JS `number` values are modelled as exact rationals (`ℚ`); all comparisons
  in the source are order comparisons on numbers, which `ℚ` mirrors exactly.
* A JS `Date` is only ever inspected through `isDaytime`, which compares the
  timestamp against 06:00:00.000 and 18:00:00.000 of the same local calendar
  day (`getSunTimes` uses `setHours`, which preserves the date).  A timestamp
  is therefore modelled by its local-time milliseconds-of-day (`ℤ`).
* A TS `DetectionResult` with `anomalyDetected: false` carries no other
  fields (`{ anomalyDetected: false } as DetectionResult`); it is modelled as
  `none`, and a fired detection as `some Detection`.
* `details.description` / `recommendation` are presentation-only strings
  (built with `toFixed` formatting) and are not modelled; the claim-relevant
  parts of `details` (`issues`, `isPanelIssue`) are fields of `Detection`.
-/

namespace HybridSolar

/-- `SEVERITY_LEVELS` of `entities/Anomaly.ts`. -/
inductive Severity
  | LOW
  | MEDIUM
  | HIGH
  | CRITICAL
deriving DecidableEq, Repr

/-- `ANOMALY_TYPES` of `entities/Anomaly.ts`. -/
inductive AnomalyType
  | COMPLETE_FAILURE
  | DEGRADATION
  | WEATHER_RELATED
  | SENSOR_MALFUNCTION
deriving DecidableEq, Repr

/-- `ANOMALY_STATUS` of `entities/Anomaly.ts`. -/
inductive AnomalyStatus
  | ACTIVE
  | ACKNOWLEDGED
  | RESOLVED
deriving DecidableEq, Repr

/-- Position of a severity in the source's
`severityOrder = [LOW, MEDIUM, HIGH, CRITICAL]` array (`indexOf`). -/
def severityIndex : Severity → ℕ
  | .LOW => 0
  | .MEDIUM => 1
  | .HIGH => 2
  | .CRITICAL => 3

/-- One entry of the `issues` array built by `detectSensorMalfunction`. -/
structure Issue where
  issue : String
  severity : Severity
  confidence : ℚ
deriving DecidableEq, Repr

/-- A fired detection (`DetectionResult` with `anomalyDetected: true`).
`isPanelIssue` models `details.isPanelIssue` (present only for the weather
classifier); `issues` models `details.issues` (present only for the sensor
checker). -/
structure Detection where
  anomalyType : AnomalyType
  severity : Severity
  confidence : ℚ
  isPanelIssue : Option Bool
  issues : List Issue
deriving DecidableEq, Repr

/-- `isDaytime` composed with `getSunTimes`: sunrise is 06:00:00.000 and
sunset 18:00:00.000 of the timestamp's own local day, so the comparison
reduces to the local milliseconds-of-day. -/
def isDaytime (tsLocalMs : ℤ) : Bool :=
  decide (6 * 3600000 ≤ tsLocalMs ∧ tsLocalMs ≤ 18 * 3600000)

/-- `detectCompleteFailure` (anomaly type 1). -/
def detectCompleteFailure (energyGenerated panelCapacity : ℚ) (tsLocalMs : ℤ)
    (cloudCoverage : ℚ) : Option Detection :=
  let isDay := isDaytime tsLocalMs
  let generationPercent := energyGenerated / panelCapacity * 100
  if isDay = true ∧ generationPercent < 0.5 ∧ cloudCoverage < 90 then
    some ⟨.COMPLETE_FAILURE, .CRITICAL, 0.95, none, []⟩
  else
    none

/-- `detectPanelDegradation` (anomaly type 2). -/
def detectPanelDegradation (currentGeneration historicalAverage : ℚ)
    (degradationThreshold : ℚ) : Option Detection :=
  if historicalAverage ≤ 0 then
    none
  else
    let performancePercent := currentGeneration / historicalAverage * 100
    let degradation := 100 - performancePercent
    if degradation > degradationThreshold then
      some ⟨.DEGRADATION,
            if degradation > 25 then .HIGH else .MEDIUM,
            min 0.85 (0.6 + degradation * 0.01), none, []⟩
    else
      none

/-- `rainImpact = Math.min(0.8, precipitation * 0.2)` of
`classifyWeatherImpact`. -/
def rainImpact (precip : ℚ) : ℚ :=
  min 0.8 (precip * 0.2)

/-- `weatherSeverity = Math.min(0.9, cloudImpact + rainImpact)` of
`classifyWeatherImpact`, with `cloudImpact = cloudCoverage / 100 * 0.7`. -/
def weatherSeverityScore (cloudCoverage precip : ℚ) : ℚ :=
  min 0.9 (cloudCoverage / 100 * 0.7 + rainImpact precip)

/-- `classifyWeatherImpact` (anomaly type 3). -/
def classifyWeatherImpact (energyGenerated expectedGeneration cloudCoverage
    precip : ℚ) : Option Detection :=
  let weatherSeverity := weatherSeverityScore cloudCoverage precip
  let expectedReduction := weatherSeverity * 100
  let actualReduction :=
    if expectedGeneration > 0 then
      (expectedGeneration - energyGenerated) / expectedGeneration * 100
    else 0
  let reductionMatch := |actualReduction - expectedReduction| < 20
  if weatherSeverity > 0.4 ∧ reductionMatch then
    some ⟨.WEATHER_RELATED, .LOW, 0.8, some false, []⟩
  else if weatherSeverity > 0.4 ∧ ¬ reductionMatch ∧
      actualReduction > expectedReduction + 20 then
    some ⟨.WEATHER_RELATED, .MEDIUM, 0.7, some true, []⟩
  else
    none

/-- The five issue checks of `detectSensorMalfunction`, in source order.
Check 3 translates `new Set(recentReadings.slice(-6)).size === 1` as "the
last six readings have exactly one distinct value", and check 4 translates
`stdDev / mean > 1.5` (with `mean > 0`) into the square-free equivalent
`variance > 1.5 ^ 2 * mean ^ 2`, which is exactly equivalent because both
sides are nonnegative. -/
def nightIssue : Issue :=
  ⟨"Night-time generation detected", .CRITICAL, 0.98⟩

def capacityIssue : Issue :=
  ⟨"Generation exceeds panel capacity", .CRITICAL, 0.99⟩

def stuckIssue : Issue :=
  ⟨"Sensor reading stuck at same value", .HIGH, 0.9⟩

def erraticIssue : Issue :=
  ⟨"Erratic sensor readings detected", .MEDIUM, 0.75⟩

def negativeIssue : Issue :=
  ⟨"Negative generation reading", .CRITICAL, 1⟩

/-- `recentReadings.slice(-6)`. -/
def lastSix (recentReadings : List ℚ) : List ℚ :=
  recentReadings.drop (recentReadings.length - 6)

/-- `recentReadings.slice(-4)`. -/
def lastFour (recentReadings : List ℚ) : List ℚ :=
  recentReadings.drop (recentReadings.length - 4)

/-- The `mean` of check 4 of `detectSensorMalfunction`. -/
def lastFourMean (recentReadings : List ℚ) : ℚ :=
  (lastFour recentReadings).sum / ((lastFour recentReadings).length : ℚ)

/-- The `variance` of check 4 of `detectSensorMalfunction`. -/
def lastFourVariance (recentReadings : List ℚ) : ℚ :=
  ((lastFour recentReadings).map
    (fun v => (v - lastFourMean recentReadings) ^ 2)).sum /
    ((lastFour recentReadings).length : ℚ)

def sensorIssues (energyGenerated panelCapacity : ℚ) (tsLocalMs : ℤ)
    (recentReadings : List ℚ) : List Issue :=
  let isDay := isDaytime tsLocalMs
  let check1 : List Issue :=
    if ¬ isDay = true ∧ energyGenerated > 0.01 then [nightIssue] else []
  let check2 : List Issue :=
    if energyGenerated > panelCapacity * 1.05 then [capacityIssue] else []
  let check3 : List Issue :=
    if 6 ≤ recentReadings.length ∧ (lastSix recentReadings).dedup.length = 1 ∧
        recentReadings.headI ≠ 0 then
      [stuckIssue]
    else []
  let check4 : List Issue :=
    if 4 ≤ recentReadings.length ∧ lastFourMean recentReadings > 0 ∧
        lastFourVariance recentReadings >
          1.5 ^ 2 * lastFourMean recentReadings ^ 2 then
      [erraticIssue]
    else []
  let check5 : List Issue :=
    if energyGenerated < 0 then [negativeIssue] else []
  check1 ++ check2 ++ check3 ++ check4 ++ check5

/-- `issues.reduce((highest, current) => severityOrder.indexOf(current.severity)
> severityOrder.indexOf(highest.severity) ? current : highest)`: the
accumulator starts at the first issue and is replaced only on a strictly
higher severity rank. -/
def highestSeverityIssue (first : Issue) (rest : List Issue) : Issue :=
  rest.foldl
    (fun highest current =>
      if severityIndex highest.severity < severityIndex current.severity then
        current
      else highest)
    first

/-- `Math.max(...issues.map(i => i.confidence))` over a nonempty list. -/
def maxConfidence (first : Issue) (rest : List Issue) : ℚ :=
  rest.foldl (fun acc current => max acc current.confidence) first.confidence

/-- `detectSensorMalfunction` (anomaly type 4). -/
def detectSensorMalfunction (energyGenerated panelCapacity : ℚ)
    (tsLocalMs : ℤ) (recentReadings : List ℚ) : Option Detection :=
  match sensorIssues energyGenerated panelCapacity tsLocalMs recentReadings with
  | [] => none
  | first :: rest =>
      some ⟨.SENSOR_MALFUNCTION,
            (highestSeverityIssue first rest).severity,
            maxConfidence first rest,
            none,
            first :: rest⟩

/-!
Orchestrator (`runAnomalyDetection`) and persistence
(`createAnomalyIfNotExists`).  The Mongo collections are modelled as lists:
the anomaly store is a `List AnomalyRec` and `save` appends.  The data the
orchestrator fetches per solar unit (7-day records, 8-to-30-day historical
records, `capacity`) is bundled in `UnitData`.  A reading's
`new Date(timestamp).toISOString().split('T')[0]` day key is carried
directly as `dateKey`.  The orchestrator evaluates detectors on
`new Date(date)` where `date` is such a `"YYYY-MM-DD"` key; per ECMA-262
that instant is midnight UTC of that calendar date, so its local
milliseconds-of-day is the UTC offset reduced modulo 24 h — the model takes
that offset as a parameter `offsetMs` and `bucketLocalMs` computes the
local time-of-day each bucket timestamp gets.
-/

/-- JS `x || d` for an optional numeric field: `undefined` and `0` are both
falsy and yield the default. -/
def jsOrDefault (x : Option ℚ) (d : ℚ) : ℚ :=
  match x with
  | none => d
  | some v => if v = 0 then d else v

/-- JS `Math.round`: round half toward positive infinity. -/
def jsRound (q : ℚ) : ℤ :=
  ⌊q + 1 / 2⌋

/-- One `EnergyGenerationRecord` as consumed by the orchestrator.
`dateKey` is the UTC calendar-date string of its timestamp;
`cloudCoverage` and `precip` model the optional weather fields. -/
structure Reading where
  dateKey : String
  energyGenerated : ℚ
  cloudCoverage : Option ℚ
  precip : Option ℚ
deriving DecidableEq, Repr

/-- One entry of the `dailyTotals` map. -/
structure DayData where
  total : ℚ
  records : List Reading
deriving DecidableEq, Repr

/-- One step of building `dailyTotals`: add a record to its day's bucket,
creating the bucket at the end of the (insertion-ordered) map if absent. -/
def upsertDay (acc : List (String × DayData)) (r : Reading) :
    List (String × DayData) :=
  if ∃ kv ∈ acc, kv.1 = r.dateKey then
    acc.map (fun kv =>
      if kv.1 = r.dateKey then
        (kv.1, ⟨kv.2.total + r.energyGenerated, kv.2.records ++ [r]⟩)
      else kv)
  else
    acc ++ [(r.dateKey, ⟨r.energyGenerated, [r]⟩)]

/-- The `dailyTotals` map of `runAnomalyDetection`, in insertion order
(JS `Map` iteration order). -/
def groupByDay (records : List Reading) : List (String × DayData) :=
  records.foldl upsertDay []

/-- `dayData.avgCloud`: average of `r.cloudCoverage || 50` over the day's
records (left 0 when the bucket is empty, as in the source). -/
def dayAvgCloud (d : DayData) : ℚ :=
  if d.records.length = 0 then 0
  else (d.records.map (fun r => jsOrDefault r.cloudCoverage 50)).sum /
    (d.records.length : ℚ)

/-- `dayData.avgPrecip`: average of `r.precipitation || 0` over the day's
records. -/
def dayAvgPrecip (d : DayData) : ℚ :=
  if d.records.length = 0 then 0
  else (d.records.map (fun r => jsOrDefault r.precip 0)).sum /
    (d.records.length : ℚ)

/-- A persisted `Anomaly` document.  `day` stands for the calendar day of
`affectedPeriod.start` (the record is created with `affectedPeriod.start =
startOfDay(date)`, and looked up by containment of `affectedPeriod.start`
in that same day, so the day key identifies it).  `detectedAt` (wall-clock
creation time) plays no role in any claim and is not modelled. -/
structure AnomalyRec where
  solarUnitId : ℕ
  anomalyType : AnomalyType
  severity : Severity
  status : AnomalyStatus
  day : String
  confidence : ℚ
deriving DecidableEq, Repr

/-- The record `createAnomalyIfNotExists` builds and saves. -/
def mkAnomaly (solarUnitId : ℕ) (d : Detection) (day : String) : AnomalyRec :=
  ⟨solarUnitId, d.anomalyType, d.severity, .ACTIVE, day, d.confidence⟩

/-- The `(solarUnitId, anomalyType, day)` dedup key. -/
def tripleKey (r : AnomalyRec) : ℕ × AnomalyType × String :=
  (r.solarUnitId, r.anomalyType, r.day)

/-- `createAnomalyIfNotExists`: `findOne` on the dedup key, `save` (append)
only when nothing matches. -/
def createAnomalyIfNotExists (store : List AnomalyRec) (solarUnitId : ℕ)
    (d : Detection) (day : String) : List AnomalyRec :=
  if ∃ r ∈ store, tripleKey r = (solarUnitId, d.anomalyType, day) then
    store
  else
    store ++ [mkAnomaly solarUnitId d day]

/-- The detections the orchestrator persists for one daily bucket, in source
order: run `detectSensorMalfunction` first and, if it fired, persist it
alone and `continue`; otherwise collect `detectCompleteFailure`,
`classifyWeatherImpact` (with `expectedGeneration = panelCapacity * 0.5`),
and — only when no CRITICAL detection was collected and the historical
average is positive — `detectPanelDegradation` with its default threshold
15. -/
def dayDetections (panelCapacity historicalAverage : ℚ)
    (recentReadings : List ℚ) (tsLocalMs : ℤ)
    (energyGenerated cloudCoverage precip : ℚ) : List Detection :=
  match detectSensorMalfunction energyGenerated panelCapacity tsLocalMs
      recentReadings with
  | some sensorCheck => [sensorCheck]
  | none =>
    let l1 : List Detection :=
      match detectCompleteFailure energyGenerated panelCapacity tsLocalMs
          cloudCoverage with
      | some failureCheck => [failureCheck]
      | none => []
    let l2 : List Detection := l1 ++
      match classifyWeatherImpact energyGenerated (panelCapacity * 0.5)
          cloudCoverage precip with
      | some weatherCheck => [weatherCheck]
      | none => []
    l2 ++
      (if l2.any (fun d => d.severity = .CRITICAL) = false ∧
          historicalAverage > 0 then
        match detectPanelDegradation energyGenerated historicalAverage 15 with
        | some degradationCheck => [degradationCheck]
        | none => []
      else [])

/-- Persisting one bucket: `createAnomalyIfNotExists` for each detection of
the bucket (the fired sensor check alone, or the collected list). -/
def runDay (store : List AnomalyRec) (solarUnitId : ℕ)
    (panelCapacity historicalAverage : ℚ) (recentReadings : List ℚ)
    (tsLocalMs : ℤ) (bucket : String × DayData) : List AnomalyRec :=
  (dayDetections panelCapacity historicalAverage recentReadings tsLocalMs
      bucket.2.total ((jsRound (dayAvgCloud bucket.2) : ℤ) : ℚ)
      (dayAvgPrecip bucket.2)).foldl
    (fun s d => createAnomalyIfNotExists s solarUnitId d bucket.1)
    store

/-- Everything `runAnomalyDetection` reads for one solar unit:
`capacity` (`(solarUnit as any).capacity`, may be undefined), the trailing
7-day records sorted most-recent-first, and the energies of the
8-to-30-day historical records. -/
structure UnitData where
  unitId : ℕ
  capacity : Option ℚ
  records : List Reading
  historicalRecords : List ℚ
deriving DecidableEq, Repr

/-- `const panelCapacity = (solarUnit as any).capacity || 5`. -/
def unitPanelCapacity (u : UnitData) : ℚ :=
  jsOrDefault u.capacity 5

/-- The 8-to-30-day historical average (0 when no historical records). -/
def unitHistoricalAverage (u : UnitData) : ℚ :=
  if u.historicalRecords.length = 0 then 0
  else u.historicalRecords.sum / (u.historicalRecords.length : ℚ)

/-- `records.slice(0, 10).map(r => r.energyGenerated)`. -/
def unitRecentReadings (u : UnitData) : List ℚ :=
  (u.records.take 10).map Reading.energyGenerated

/-- The local milliseconds-of-day of `new Date("YYYY-MM-DD")` — midnight
UTC of that date — at UTC offset `offsetMs`. -/
def bucketLocalMs (offsetMs : ℤ) : ℤ :=
  offsetMs.emod 86400000

/-- Processing one solar unit with a nonempty record set: bucket the 7-day
records by day and run the per-bucket detection/persistence loop. -/
def runUnit (offsetMs : ℤ) (u : UnitData) (store : List AnomalyRec) :
    List AnomalyRec :=
  (groupByDay u.records).foldl
    (fun s bucket =>
      runDay s u.unitId (unitPanelCapacity u) (unitHistoricalAverage u)
        (unitRecentReadings u) (bucketLocalMs offsetMs) bucket)
    store

/-- `runAnomalyDetection`: process each active unit in order, skipping units
with no records in the trailing 7 days (`continue` on `records.length ===
0`). -/
def runAnomalyDetection (offsetMs : ℤ) (units : List UnitData)
    (store : List AnomalyRec) : List AnomalyRec :=
  units.foldl
    (fun s u => if u.records.length = 0 then s else runUnit offsetMs u s)
    store

/-- `runAnomalyDetection` with its fallible store reads made explicit: the
per-unit record fetches are `await`s inside the unit loop, and the source
has no try/catch inside that loop — its only handler wraps the whole
function body and rethrows (`catch (error) { console.error(...); throw
error; }`).  A rejection while fetching one unit's data therefore
propagates out of the loop: no later unit is processed and the caller
receives the error. -/
def runAnomalyDetectionE (fetchUnitData : ℕ → Except String UnitData)
    (unitIds : List ℕ) (offsetMs : ℤ) (store : List AnomalyRec) :
    Except String (List AnomalyRec) :=
  match unitIds with
  | [] => .ok store
  | uid :: rest =>
    match fetchUnitData uid with
    | .error e => .error e
    | .ok u =>
      runAnomalyDetectionE fetchUnitData rest offsetMs
        (if u.records.length = 0 then store else runUnit offsetMs u store)

/-!
Auxiliary definitions for the verification: the store predicates of the
dedup invariant, the run re-expressed as a list of persistence commands
(each command is one `createAnomalyIfNotExists` call the orchestrator
makes, in execution order), a transcription of the spec's weather decision
table to compare `classifyWeatherImpact` against, and concrete inputs used
by witnesses and counterexamples.
-/

/-- The store holds some record with dedup key `k`. -/
def hasTriple (store : List AnomalyRec) (k : ℕ × AnomalyType × String) : Prop :=
  ∃ r ∈ store, tripleKey r = k

/-- No two records of the store share a dedup key. -/
def distinctTriples (store : List AnomalyRec) : Prop :=
  store.Pairwise (fun a b => tripleKey a ≠ tripleKey b)

/-- One `createAnomalyIfNotExists` call made by the orchestrator. -/
structure Cmd where
  unit : ℕ
  det : Detection
  day : String
deriving DecidableEq, Repr

def cmdKey (c : Cmd) : ℕ × AnomalyType × String :=
  (c.unit, c.det.anomalyType, c.day)

def applyCmd (store : List AnomalyRec) (c : Cmd) : List AnomalyRec :=
  createAnomalyIfNotExists store c.unit c.det c.day

def applyCmds (store : List AnomalyRec) (cmds : List Cmd) : List AnomalyRec :=
  cmds.foldl applyCmd store

/-- The persistence calls of one daily bucket. -/
def dayCmds (solarUnitId : ℕ) (panelCapacity historicalAverage : ℚ)
    (recentReadings : List ℚ) (tsLocalMs : ℤ) (bucket : String × DayData) :
    List Cmd :=
  (dayDetections panelCapacity historicalAverage recentReadings tsLocalMs
      bucket.2.total ((jsRound (dayAvgCloud bucket.2) : ℤ) : ℚ)
      (dayAvgPrecip bucket.2)).map
    (fun d => ⟨solarUnitId, d, bucket.1⟩)

/-- The persistence calls of one solar unit. -/
def unitCmds (offsetMs : ℤ) (u : UnitData) : List Cmd :=
  (groupByDay u.records).flatMap
    (dayCmds u.unitId (unitPanelCapacity u) (unitHistoricalAverage u)
      (unitRecentReadings u) (bucketLocalMs offsetMs))

/-- The persistence calls of a whole run. -/
def runCmds (offsetMs : ℤ) (units : List UnitData) : List Cmd :=
  units.flatMap
    (fun u => if u.records.length = 0 then [] else unitCmds offsetMs u)

/-- Modelled from the spec: the weather decision table exactly as §4.4 and
claim C6 word it — LOW/0.8/isPanelIssue=false when `weatherSeverity > 0.4`
and `|actualReduction - expectedReduction| < 20`; MEDIUM/0.7/isPanelIssue=
true when `weatherSeverity > 0.4` and `actualReduction > expectedReduction
+ 20`; otherwise no detection.  To be compared with
`classifyWeatherImpact`, which was translated from the source. -/
def classifyWeatherImpactSpec (energyGenerated expectedGeneration
    cloudCoverage precip : ℚ) : Option Detection :=
  let weatherSeverity := weatherSeverityScore cloudCoverage precip
  let expectedReduction := weatherSeverity * 100
  let actualReduction :=
    if expectedGeneration > 0 then
      (expectedGeneration - energyGenerated) / expectedGeneration * 100
    else 0
  if weatherSeverity > 0.4 ∧ |actualReduction - expectedReduction| < 20 then
    some ⟨.WEATHER_RELATED, .LOW, 0.8, some false, []⟩
  else if weatherSeverity > 0.4 ∧
      actualReduction > expectedReduction + 20 then
    some ⟨.WEATHER_RELATED, .MEDIUM, 0.7, some true, []⟩
  else
    none

/-- A solar unit whose single reading (5 kWh on a bucket evaluated at local
midnight, offset 0) trips the night-generation sensor check. -/
def demoUnit : UnitData :=
  ⟨1, some 5, [⟨"2026-10-08", 5, some 25, some 0⟩], []⟩

/-- A second healthy unit for the error-propagation counterexample. -/
def demoUnitTwo : UnitData :=
  ⟨2, some 5, [⟨"2026-10-08", 5, some 25, some 0⟩], []⟩

/-- A unit-data fetch whose store read fails for unit 1 only. -/
def demoFetch : ℕ → Except String UnitData :=
  fun uid => if uid = 1 then .error "store unavailable" else .ok demoUnitTwo

/-- A store already holding a COMPLETE_FAILURE record for `demoUnit`'s
bucket day. -/
def demoStore : List AnomalyRec :=
  [⟨1, .COMPLETE_FAILURE, .CRITICAL, .ACTIVE, "2026-10-08", 0.95⟩]

/-- The single daily bucket of `demoUnit`. -/
def demoBucket : String × DayData :=
  ("2026-10-08", ⟨5, [⟨"2026-10-08", 5, some 25, some 0⟩]⟩)

/-!
Lemmas about the persistence step and about runs re-expressed as command
lists.
-/

theorem mem_createAnomalyIfNotExists {r : AnomalyRec} {store : List AnomalyRec}
    {u : ℕ} {d : Detection} {day : String}
    (h : r ∈ createAnomalyIfNotExists store u d day) :
    r ∈ store ∨ r = mkAnomaly u d day := by
  unfold createAnomalyIfNotExists at h
  split at h
  · exact Or.inl h
  · rcases List.mem_append.mp h with h1 | h1
    · exact Or.inl h1
    · exact Or.inr (List.mem_singleton.mp h1)

theorem createAnomalyIfNotExists_eq_of_hasTriple {store : List AnomalyRec}
    {u : ℕ} {d : Detection} {day : String}
    (h : hasTriple store (u, d.anomalyType, day)) :
    createAnomalyIfNotExists store u d day = store := by
  unfold createAnomalyIfNotExists
  exact if_pos h

theorem subset_createAnomalyIfNotExists {store : List AnomalyRec} {u : ℕ}
    {d : Detection} {day : String} {r : AnomalyRec} (hr : r ∈ store) :
    r ∈ createAnomalyIfNotExists store u d day := by
  unfold createAnomalyIfNotExists
  split
  · exact hr
  · exact List.mem_append_left _ hr

theorem hasTriple_createAnomalyIfNotExists_self (store : List AnomalyRec)
    (u : ℕ) (d : Detection) (day : String) :
    hasTriple (createAnomalyIfNotExists store u d day)
      (u, d.anomalyType, day) := by
  unfold createAnomalyIfNotExists
  split
  · assumption
  · exact ⟨mkAnomaly u d day,
      List.mem_append_right _ (List.mem_singleton_self _), rfl⟩

theorem hasTriple_createAnomalyIfNotExists_mono {store : List AnomalyRec}
    {k : ℕ × AnomalyType × String} (h : hasTriple store k) (u : ℕ)
    (d : Detection) (day : String) :
    hasTriple (createAnomalyIfNotExists store u d day) k := by
  obtain ⟨r, hr, hk⟩ := h
  exact ⟨r, subset_createAnomalyIfNotExists hr, hk⟩

theorem distinctTriples_createAnomalyIfNotExists {store : List AnomalyRec}
    (h : distinctTriples store) (u : ℕ) (d : Detection) (day : String) :
    distinctTriples (createAnomalyIfNotExists store u d day) := by
  unfold createAnomalyIfNotExists
  split
  · exact h
  · rename_i hno
    unfold distinctTriples at h ⊢
    rw [List.pairwise_append]
    refine ⟨h, List.pairwise_singleton _ _, ?_⟩
    intro a ha b hb
    rw [List.mem_singleton] at hb
    subst hb
    intro hk
    exact hno ⟨a, ha, hk⟩

theorem applyCmds_append (store : List AnomalyRec) (l1 l2 : List Cmd) :
    applyCmds store (l1 ++ l2) = applyCmds (applyCmds store l1) l2 :=
  List.foldl_append ..

theorem mem_applyCmds {r : AnomalyRec} {store : List AnomalyRec}
    {cmds : List Cmd} (h : r ∈ applyCmds store cmds) :
    r ∈ store ∨ ∃ c ∈ cmds, r = mkAnomaly c.unit c.det c.day := by
  induction cmds generalizing store with
  | nil => exact Or.inl h
  | cons c rest ih =>
    rcases ih h with h1 | ⟨c₂, hc₂, he⟩
    · rcases mem_createAnomalyIfNotExists h1 with h2 | h2
      · exact Or.inl h2
      · exact Or.inr ⟨c, List.mem_cons_self .., h2⟩
    · exact Or.inr ⟨c₂, List.mem_cons_of_mem _ hc₂, he⟩

theorem subset_applyCmds {store : List AnomalyRec} (cmds : List Cmd)
    {r : AnomalyRec} (hr : r ∈ store) : r ∈ applyCmds store cmds := by
  induction cmds generalizing store with
  | nil => exact hr
  | cons c rest ih => exact ih (subset_createAnomalyIfNotExists hr)

theorem hasTriple_applyCmds_mono {store : List AnomalyRec}
    {k : ℕ × AnomalyType × String} (cmds : List Cmd)
    (h : hasTriple store k) : hasTriple (applyCmds store cmds) k := by
  obtain ⟨r, hr, hk⟩ := h
  exact ⟨r, subset_applyCmds cmds hr, hk⟩

theorem hasTriple_applyCmds_of_mem {store : List AnomalyRec}
    {cmds : List Cmd} {c : Cmd} (h : c ∈ cmds) :
    hasTriple (applyCmds store cmds) (cmdKey c) := by
  induction cmds generalizing store with
  | nil => cases h
  | cons c₀ rest ih =>
    rcases List.mem_cons.mp h with h1 | h1
    · subst h1
      exact hasTriple_applyCmds_mono rest
        (hasTriple_createAnomalyIfNotExists_self ..)
    · exact ih h1

theorem applyCmds_eq_of_hasTriples {store : List AnomalyRec}
    {cmds : List Cmd} (h : ∀ c ∈ cmds, hasTriple store (cmdKey c)) :
    applyCmds store cmds = store := by
  induction cmds with
  | nil => rfl
  | cons c rest ih =>
    have h1 : applyCmd store c = store :=
      createAnomalyIfNotExists_eq_of_hasTriple (h c (List.mem_cons_self ..))
    show applyCmds (applyCmd store c) rest = store
    rw [h1]
    exact ih (fun c₂ hc₂ => h c₂ (List.mem_cons_of_mem _ hc₂))

theorem applyCmds_idem (store : List AnomalyRec) (cmds : List Cmd) :
    applyCmds (applyCmds store cmds) cmds = applyCmds store cmds :=
  applyCmds_eq_of_hasTriples (fun _ hc => hasTriple_applyCmds_of_mem hc)

theorem distinctTriples_applyCmds {store : List AnomalyRec}
    (h : distinctTriples store) (cmds : List Cmd) :
    distinctTriples (applyCmds store cmds) := by
  induction cmds generalizing store with
  | nil => exact h
  | cons c rest ih =>
    exact ih (distinctTriples_createAnomalyIfNotExists h ..)

theorem runDay_eq_applyCmds (store : List AnomalyRec) (u : ℕ)
    (cap hist : ℚ) (recent : List ℚ) (ts : ℤ) (bucket : String × DayData) :
    runDay store u cap hist recent ts bucket =
      applyCmds store (dayCmds u cap hist recent ts bucket) := by
  unfold runDay dayCmds applyCmds applyCmd
  rw [List.foldl_map]

theorem foldl_applyCmds_flatMap {α : Type} (l : List α) (f : α → List Cmd)
    (store : List AnomalyRec) :
    l.foldl (fun s a => applyCmds s (f a)) store =
      applyCmds store (l.flatMap f) := by
  induction l generalizing store with
  | nil => rfl
  | cons a rest ih =>
    show rest.foldl _ (applyCmds store (f a)) = _
    rw [ih, List.flatMap_cons, applyCmds_append]

theorem runUnit_eq_applyCmds (off : ℤ) (u : UnitData)
    (store : List AnomalyRec) :
    runUnit off u store = applyCmds store (unitCmds off u) := by
  unfold runUnit unitCmds
  rw [← foldl_applyCmds_flatMap]
  simp only [runDay_eq_applyCmds]

theorem runAnomalyDetection_eq_applyCmds (off : ℤ) (units : List UnitData)
    (store : List AnomalyRec) :
    runAnomalyDetection off units store =
      applyCmds store (runCmds off units) := by
  unfold runAnomalyDetection runCmds
  rw [← foldl_applyCmds_flatMap]
  congr 1
  funext s u
  by_cases hc : u.records.length = 0
  · rw [if_pos hc, if_pos hc]
    rfl
  · rw [if_neg hc, if_neg hc]
    exact runUnit_eq_applyCmds ..

theorem keys_upsertDay_of_mem {acc : List (String × DayData)} {r : Reading}
    (h : ∃ kv ∈ acc, kv.1 = r.dateKey) :
    (upsertDay acc r).map Prod.fst = acc.map Prod.fst := by
  unfold upsertDay
  rw [if_pos h, List.map_map]
  apply List.map_congr_left
  intro kv _
  by_cases hk : kv.1 = r.dateKey
  · simp [Function.comp, hk]
  · simp [Function.comp, hk]

theorem nodup_keys_upsertDay {acc : List (String × DayData)} {r : Reading}
    (h : (acc.map Prod.fst).Nodup) :
    ((upsertDay acc r).map Prod.fst).Nodup := by
  by_cases hc : ∃ kv ∈ acc, kv.1 = r.dateKey
  · rw [keys_upsertDay_of_mem hc]
    exact h
  · unfold upsertDay
    rw [if_neg hc, List.map_append, List.nodup_append]
    refine ⟨h, by simp, ?_⟩
    intro a ha hb
    simp only [List.map_cons, List.map_nil, List.mem_singleton] at hb
    obtain ⟨kv, hkv, hfst⟩ := List.mem_map.mp ha
    exact hc ⟨kv, hkv, by rw [hfst, hb]⟩

theorem nodup_keys_groupByDay_aux (records : List Reading) :
    ∀ acc : List (String × DayData), (acc.map Prod.fst).Nodup →
      ((records.foldl upsertDay acc).map Prod.fst).Nodup := by
  induction records with
  | nil => exact fun _ h => h
  | cons r rest ih => exact fun acc h => ih _ (nodup_keys_upsertDay h)

theorem nodup_keys_groupByDay (records : List Reading) :
    ((groupByDay records).map Prod.fst).Nodup :=
  nodup_keys_groupByDay_aux records [] (by simp)

theorem eq_of_mem_groupByDay {records : List Reading}
    {b1 b2 : String × DayData} (h1 : b1 ∈ groupByDay records)
    (h2 : b2 ∈ groupByDay records) (hk : b1.1 = b2.1) : b1 = b2 :=
  List.inj_on_of_nodup_map (nodup_keys_groupByDay records) h1 h2 hk

theorem eq_of_mem_units {units : List UnitData} {u v : UnitData}
    (hn : (units.map UnitData.unitId).Nodup) (hu : u ∈ units)
    (hv : v ∈ units) (h : u.unitId = v.unitId) : u = v :=
  List.inj_on_of_nodup_map hn hu hv h

theorem mem_dayCmds {c : Cmd} {u : ℕ} {cap hist : ℚ} {recent : List ℚ}
    {ts : ℤ} {bucket : String × DayData}
    (h : c ∈ dayCmds u cap hist recent ts bucket) :
    c.unit = u ∧ c.day = bucket.1 ∧
      c.det ∈ dayDetections cap hist recent ts bucket.2.total
        ((jsRound (dayAvgCloud bucket.2) : ℤ) : ℚ) (dayAvgPrecip bucket.2) := by
  obtain ⟨d, hd, he⟩ := List.mem_map.mp h
  subst he
  exact ⟨rfl, rfl, hd⟩

theorem mem_unitCmds {c : Cmd} {off : ℤ} {u : UnitData}
    (h : c ∈ unitCmds off u) :
    c.unit = u.unitId ∧ ∃ b ∈ groupByDay u.records, c.day = b.1 ∧
      c.det ∈ dayDetections (unitPanelCapacity u) (unitHistoricalAverage u)
        (unitRecentReadings u) (bucketLocalMs off) b.2.total
        ((jsRound (dayAvgCloud b.2) : ℤ) : ℚ) (dayAvgPrecip b.2) := by
  obtain ⟨b, hb, hc⟩ := List.mem_flatMap.mp h
  obtain ⟨h1, h2, h3⟩ := mem_dayCmds hc
  exact ⟨h1, b, hb, h2, h3⟩

theorem mem_runCmds {c : Cmd} {off : ℤ} {units : List UnitData}
    (h : c ∈ runCmds off units) : ∃ u ∈ units, c ∈ unitCmds off u := by
  obtain ⟨u, hu, hc⟩ := List.mem_flatMap.mp h
  by_cases he : u.records.length = 0
  · rw [if_pos he] at hc
    cases hc
  · rw [if_neg he] at hc
    exact ⟨u, hu, hc⟩

theorem dayDetections_of_sensor_fires {cap hist : ℚ} {recent : List ℚ}
    {ts : ℤ} {t cc p : ℚ} {s : Detection}
    (h : detectSensorMalfunction t cap ts recent = some s) :
    dayDetections cap hist recent ts t cc p = [s] := by
  unfold dayDetections
  rw [h]

theorem detectSensorMalfunction_anomalyType {t cap : ℚ} {ts : ℤ}
    {recent : List ℚ} {s : Detection}
    (h : detectSensorMalfunction t cap ts recent = some s) :
    s.anomalyType = AnomalyType.SENSOR_MALFUNCTION := by
  unfold detectSensorMalfunction at h
  split at h
  · exact Option.noConfusion h
  · injection h with h1
    subst h1
    rfl

/-- C1: in every run of the orchestrator over units with distinct ids, for
every daily bucket of a processed unit: if `detectSensorMalfunction` fires
for that bucket, then no record of type COMPLETE_FAILURE, WEATHER_RELATED
or DEGRADATION for that unit and day is persisted in that run — any such
record in the final store was already in the initial store.  (In the fired
branch the bucket's detection list is `[sensorCheck]`, so the other
detectors are not evaluated for the bucket at all.) -/
theorem sensor_fire_suppresses_other_detectors (off : ℤ)
    (units : List UnitData) (store : List AnomalyRec) (u : UnitData)
    (bucket : String × DayData)
    (hids : (units.map UnitData.unitId).Nodup)
    (hu : u ∈ units) (hb : bucket ∈ groupByDay u.records)
    (hfire : (detectSensorMalfunction bucket.2.total (unitPanelCapacity u)
      (bucketLocalMs off) (unitRecentReadings u)).isSome = true)
    (r : AnomalyRec) (hr : r ∈ runAnomalyDetection off units store)
    (hrid : r.solarUnitId = u.unitId) (hday : r.day = bucket.1)
    (htype : r.anomalyType = .COMPLETE_FAILURE ∨
      r.anomalyType = .WEATHER_RELATED ∨ r.anomalyType = .DEGRADATION) :
    r ∈ store := by
  rw [runAnomalyDetection_eq_applyCmds] at hr
  rcases mem_applyCmds hr with h | ⟨c, hc, he⟩
  · exact h
  · exfalso
    subst he
    obtain ⟨u', hu', hcu⟩ := mem_runCmds hc
    obtain ⟨hunit, b, hbmem, hbday, hdet⟩ := mem_unitCmds hcu
    have hcu2 : c.unit = u.unitId := hrid
    have hueq : u' = u := eq_of_mem_units hids hu' hu (hunit.symm.trans hcu2)
    subst hueq
    have hd2 : c.day = bucket.1 := hday
    have hbeq : b = bucket :=
      eq_of_mem_groupByDay hbmem hb (hbday.symm.trans hd2)
    subst hbeq
    obtain ⟨s, hs⟩ := Option.isSome_iff_exists.mp hfire
    rw [dayDetections_of_sensor_fires hs, List.mem_singleton] at hdet
    have hty : c.det.anomalyType = AnomalyType.SENSOR_MALFUNCTION := by
      rw [hdet]
      exact detectSensorMalfunction_anomalyType hs
    rcases htype with ht | ht | ht <;>
      · have ht2 : c.det.anomalyType = _ := ht
        rw [hty] at ht2
        cases ht2

/-- C2: the store never holds two records with the same
`(solarUnitId, anomalyType, day)` triple — `createAnomalyIfNotExists` looks
the triple up and appends a fresh ACTIVE record only when none exists — and
a second orchestrator run on identical input data adds no record: every
newly persisted record is ACTIVE, the distinct-triple invariant is
preserved, and the run is idempotent. -/
theorem run_dedup_invariant_and_idempotent (off : ℤ) (units : List UnitData)
    (store : List AnomalyRec) (h : distinctTriples store) :
    distinctTriples (runAnomalyDetection off units store) ∧
    (∀ r ∈ runAnomalyDetection off units store,
      r ∈ store ∨ r.status = .ACTIVE) ∧
    runAnomalyDetection off units (runAnomalyDetection off units store) =
      runAnomalyDetection off units store := by
  refine ⟨?_, ?_, ?_⟩
  · rw [runAnomalyDetection_eq_applyCmds]
    exact distinctTriples_applyCmds h _
  · intro r hr
    rw [runAnomalyDetection_eq_applyCmds] at hr
    rcases mem_applyCmds hr with h1 | ⟨c, _, he⟩
    · exact Or.inl h1
    · subst he
      exact Or.inr rfl
  · simp only [runAnomalyDetection_eq_applyCmds]
    exact applyCmds_idem ..

/-- C3 counterexample: with unit 1's per-unit store read failing and a
healthy unit 2 after it, the run returns the error — the per-unit failure
is not caught at the unit loop boundary and processing does not continue
with unit 2. -/
theorem perUnit_error_not_contained :
    runAnomalyDetectionE demoFetch [1, 2] 0 [] =
      Except.error "store unavailable" := by
  rfl

/-- C3 (amended): a per-unit processing error is not contained at the
unit-loop boundary: the first failing unit's error propagates out of
`runAnomalyDetection` (whose only handler logs and rethrows), aborting the
processing of every remaining unit. -/
theorem perUnit_error_aborts_run (fetch : ℕ → Except String UnitData)
    (pre : List ℕ) (uid : ℕ) (post : List ℕ) (off : ℤ)
    (store : List AnomalyRec) (e : String)
    (hpre : ∀ v ∈ pre, ∃ u, fetch v = Except.ok u)
    (hu : fetch uid = Except.error e) :
    runAnomalyDetectionE fetch (pre ++ uid :: post) off store =
      Except.error e := by
  revert hpre
  induction pre generalizing store with
  | nil =>
    intro _
    show runAnomalyDetectionE fetch (uid :: post) off store = _
    unfold runAnomalyDetectionE
    rw [hu]
  | cons v rest ih =>
    intro hpre
    obtain ⟨u, huv⟩ := hpre v (List.mem_cons_self ..)
    show runAnomalyDetectionE fetch (v :: (rest ++ uid :: post)) off store = _
    unfold runAnomalyDetectionE
    rw [huv]
    exact ih _ (fun w hw => hpre w (List.mem_cons_of_mem _ hw))

/-- C5: for positive panel capacity, `detectCompleteFailure` returns the
COMPLETE_FAILURE / CRITICAL / confidence-0.95 detection exactly when the
timestamp is daytime, generation is below 0.5 % of capacity, and cloud
coverage is below 90. -/
theorem completeFailure_iff (e cap : ℚ) (ts : ℤ) (cc : ℚ) (hcap : 0 < cap) :
    detectCompleteFailure e cap ts cc =
        some ⟨.COMPLETE_FAILURE, .CRITICAL, 0.95, none, []⟩ ↔
      (isDaytime ts = true ∧ e / cap * 100 < 0.5 ∧ cc < 90) := by
  simp only [detectCompleteFailure]
  split
  · rename_i hcond
    exact iff_of_true rfl hcond
  · rename_i hcond
    exact iff_of_false (fun hx => Option.noConfusion hx) hcond

/-- C6: `classifyWeatherImpact` implements exactly the spec's decision
table `classifyWeatherImpactSpec` — in particular the source's extra
"not reductionMatch" conjunct in the second branch is redundant, and
nothing fires when the severity gate fails or when the actual reduction
falls more than 20 points below the expected one. -/
theorem classifyWeatherImpact_matches_spec_table (e exp cc p : ℚ) :
    classifyWeatherImpact e exp cc p = classifyWeatherImpactSpec e exp cc p := by
  simp only [classifyWeatherImpact, classifyWeatherImpactSpec]
  generalize (if exp > 0 then (exp - e) / exp * 100 else 0) = ar
  generalize weatherSeverityScore cc p = ws
  by_cases ha : ws > 0.4 <;> by_cases hb : |ar - ws * 100| < 20 <;>
    by_cases hc : ar > ws * 100 + 20 <;> simp [ha, hb, hc]

theorem mem_ite_singleton {α : Type} {c : Prop} [Decidable c] {a x : α} :
    a ∈ (if c then [x] else []) ↔ c ∧ a = x := by
  by_cases h : c
  · simp [h]
  · simp [h]

theorem mem_sensorIssues_iff {a : Issue} {e cap : ℚ} {ts : ℤ}
    {rs : List ℚ} :
    a ∈ sensorIssues e cap ts rs ↔
      ((¬ isDaytime ts = true ∧ e > 0.01) ∧ a = nightIssue) ∨
      (e > cap * 1.05 ∧ a = capacityIssue) ∨
      ((6 ≤ rs.length ∧ (lastSix rs).dedup.length = 1 ∧ rs.headI ≠ 0) ∧
        a = stuckIssue) ∨
      ((4 ≤ rs.length ∧ lastFourMean rs > 0 ∧
        lastFourVariance rs > 1.5 ^ 2 * lastFourMean rs ^ 2) ∧
        a = erraticIssue) ∨
      (e < 0 ∧ a = negativeIssue) := by
  simp only [sensorIssues, List.mem_append, mem_ite_singleton, or_assoc]

theorem detectSensorMalfunction_isSome {t cap : ℚ} {ts : ℤ} {rs : List ℚ}
    (h : sensorIssues t cap ts rs ≠ []) :
    (detectSensorMalfunction t cap ts rs).isSome = true := by
  unfold detectSensorMalfunction
  split
  · rename_i he
    exact absurd he h
  · rfl

theorem severityIndex_le_three (s : Severity) : severityIndex s ≤ 3 := by
  cases s <;> simp [severityIndex]

theorem eq_CRITICAL_of_severityIndex {s : Severity}
    (h : severityIndex s = 3) : s = .CRITICAL := by
  cases s
  · exact absurd h (by simp [severityIndex])
  · exact absurd h (by simp [severityIndex])
  · exact absurd h (by simp [severityIndex])
  · rfl

theorem severityIndex_foldl_ge_init (first : Issue) (rest : List Issue) :
    severityIndex first.severity ≤
      severityIndex (highestSeverityIssue first rest).severity := by
  induction rest generalizing first with
  | nil => exact le_refl _
  | cons i rest ih =>
    show severityIndex first.severity ≤ severityIndex (highestSeverityIssue
      (if severityIndex first.severity < severityIndex i.severity then i
        else first) rest).severity
    refine le_trans ?_ (ih _)
    by_cases h : severityIndex first.severity < severityIndex i.severity
    · rw [if_pos h]
      exact le_of_lt h
    · rw [if_neg h]

theorem severityIndex_foldl_ge_mem {i : Issue} (first : Issue)
    {rest : List Issue} (h : i ∈ rest) :
    severityIndex i.severity ≤
      severityIndex (highestSeverityIssue first rest).severity := by
  induction rest generalizing first with
  | nil => cases h
  | cons j rest ih =>
    show severityIndex i.severity ≤ severityIndex (highestSeverityIssue
      (if severityIndex first.severity < severityIndex j.severity then j
        else first) rest).severity
    rcases List.mem_cons.mp h with h1 | h1
    · subst h1
      refine le_trans ?_ (severityIndex_foldl_ge_init _ rest)
      by_cases h2 : severityIndex first.severity < severityIndex i.severity
      · rw [if_pos h2]
      · rw [if_neg h2]
        exact le_of_not_lt h2
    · exact ih _ h1

theorem le_foldl_max (l : List Issue) (a : ℚ) :
    a ≤ l.foldl (fun acc c => max acc c.confidence) a := by
  induction l generalizing a with
  | nil => exact le_refl a
  | cons j rest ih => exact le_trans (le_max_left a j.confidence) (ih _)

theorem mem_le_foldl_max {i : Issue} {l : List Issue} (h : i ∈ l) (a : ℚ) :
    i.confidence ≤ l.foldl (fun acc c => max acc c.confidence) a := by
  induction l generalizing a with
  | nil => cases h
  | cons j rest ih =>
    rcases List.mem_cons.mp h with h1 | h1
    · subst h1
      exact le_trans (le_max_right a i.confidence) (le_foldl_max rest _)
    · exact ih h1 _

theorem foldl_max_le {l : List Issue} {a b : ℚ} (ha : a ≤ b)
    (h : ∀ i ∈ l, i.confidence ≤ b) :
    l.foldl (fun acc c => max acc c.confidence) a ≤ b := by
  induction l generalizing a with
  | nil => exact ha
  | cons j rest ih =>
    exact ih (max_le ha (h j (List.mem_cons_self ..)))
      (fun i hi => h i (List.mem_cons_of_mem _ hi))

section ConcreteEvaluation

attribute [local semireducible] Rat.ofScientific Rat.add Rat.sub Rat.mul Rat.inv

theorem sensorIssues_confidence_le_one {i : Issue} {e cap : ℚ} {ts : ℤ}
    {rs : List ℚ} (h : i ∈ sensorIssues e cap ts rs) : i.confidence ≤ 1 := by
  rw [mem_sensorIssues_iff] at h
  rcases h with ⟨_, h⟩ | ⟨_, h⟩ | ⟨_, h⟩ | ⟨_, h⟩ | ⟨_, h⟩ <;> subst h <;> decide

/-- C4 counterexample: for `recentReadings = [0, 5, 5, 5, 5, 5, 5]` the last
six entries are all 5 (one distinct value, non-zero), yet no stuck-sensor
issue is reported — the source tests `recentReadings[0] !== 0`, and the
first entry is 0. -/
theorem stuck_sensor_claim_counterexample :
    6 ≤ ([0, 5, 5, 5, 5, 5, 5] : List ℚ).length ∧
    lastSix [0, 5, 5, 5, 5, 5, 5] = ([5, 5, 5, 5, 5, 5] : List ℚ) ∧
    (5 : ℚ) ≠ 0 ∧
    stuckIssue ∉ sensorIssues 1 5 43200000 [0, 5, 5, 5, 5, 5, 5] := by
  decide

/-- C4 (amended): `detectSensorMalfunction` reports the stuck-sensor issue
(HIGH, confidence 0.90) exactly when `recentReadings` has at least 6
entries, its last 6 entries are all identical, and its FIRST entry is
non-zero (the code tests `recentReadings[0]`, which coincides with the
common trailing value only when the list has exactly 6 entries). -/
theorem stuck_issue_iff (e cap : ℚ) (ts : ℤ) (rs : List ℚ) :
    stuckIssue ∈ sensorIssues e cap ts rs ↔
      (6 ≤ rs.length ∧ (lastSix rs).dedup.length = 1 ∧ rs.headI ≠ 0) := by
  rw [mem_sensorIssues_iff]
  simp [(by decide : stuckIssue ≠ nightIssue),
    (by decide : stuckIssue ≠ capacityIssue),
    (by decide : stuckIssue ≠ erraticIssue),
    (by decide : stuckIssue ≠ negativeIssue)]

/-- C7: a negative reading always makes `detectSensorMalfunction` fire
with anomaly type SENSOR_MALFUNCTION, severity CRITICAL (the maximum
severity across issues) and confidence 1.0 (the maximum confidence across
issues), regardless of capacity, timestamp, and recent readings. -/
theorem negative_reading_forces_critical (e cap : ℚ) (ts : ℤ)
    (rs : List ℚ) (h : e < 0) :
    ∃ d, detectSensorMalfunction e cap ts rs = some d ∧
      d.anomalyType = .SENSOR_MALFUNCTION ∧ d.severity = .CRITICAL ∧
      d.confidence = 1 := by
  have hmem : negativeIssue ∈ sensorIssues e cap ts rs := by
    rw [mem_sensorIssues_iff]
    exact Or.inr (Or.inr (Or.inr (Or.inr ⟨h, rfl⟩)))
  rcases he : sensorIssues e cap ts rs with _ | ⟨first, rest⟩
  · rw [he] at hmem
    cases hmem
  · rw [he] at hmem
    refine ⟨⟨.SENSOR_MALFUNCTION, (highestSeverityIssue first rest).severity,
      maxConfidence first rest, none, first :: rest⟩, ?_, rfl, ?_, ?_⟩
    · unfold detectSensorMalfunction
      rw [he]
    · refine eq_CRITICAL_of_severityIndex
        (le_antisymm (severityIndex_le_three _) ?_)
      rcases List.mem_cons.mp hmem with h1 | h1
      · have h4 : severityIndex first.severity = 3 := by rw [← h1]; rfl
        calc (3 : ℕ) = severityIndex first.severity := h4.symm
          _ ≤ _ := severityIndex_foldl_ge_init first rest
      · calc (3 : ℕ) = severityIndex negativeIssue.severity := rfl
          _ ≤ _ := severityIndex_foldl_ge_mem first h1
    · refine le_antisymm
        (foldl_max_le
          (sensorIssues_confidence_le_one
            (he.symm ▸ List.mem_cons_self ..))
          (fun i hi => sensorIssues_confidence_le_one
            (he.symm ▸ List.mem_cons_of_mem _ hi))) ?_
      rcases List.mem_cons.mp hmem with h1 | h1
      · have h4 : first.confidence = 1 := by rw [← h1]; rfl
        calc (1 : ℚ) = first.confidence := h4.symm
          _ ≤ _ := le_foldl_max rest first.confidence
      · calc (1 : ℚ) = negativeIssue.confidence := rfl
          _ ≤ _ := mem_le_foldl_max h1 first.confidence

/-- C8: the capacity-violation issue (CRITICAL, confidence 0.99) is
reported exactly when `energyGenerated > panelCapacity * 1.05`; in
particular at `energyGenerated = panelCapacity * 1.05` it is not reported
(strict inequality). -/
theorem capacity_violation_iff (e cap : ℚ) (ts : ℤ) (rs : List ℚ) :
    capacityIssue ∈ sensorIssues e cap ts rs ↔ e > cap * 1.05 := by
  rw [mem_sensorIssues_iff]
  simp [(by decide : capacityIssue ≠ nightIssue),
    (by decide : capacityIssue ≠ stuckIssue),
    (by decide : capacityIssue ≠ erraticIssue),
    (by decide : capacityIssue ≠ negativeIssue)]

/-- C9: for cloud coverage in [0, 100] and nonnegative precipitation the
weather severity score is at most 0.9, the precipitation term alone never
exceeds 0.8, and at cloudCoverage = 100, precipitation = 100 the score is
exactly 0.9. -/
theorem weather_severity_bounds (cc p : ℚ) (h1 : 0 ≤ cc) (h2 : cc ≤ 100)
    (h3 : 0 ≤ p) :
    weatherSeverityScore cc p ≤ 0.9 ∧ rainImpact p ≤ 0.8 ∧
      weatherSeverityScore 100 100 = 0.9 :=
  ⟨min_le_left .., min_le_left .., by decide⟩

/-- C10: the orchestrator evaluates every daily bucket at
`new Date("YYYY-MM-DD")` — midnight UTC of the bucket's calendar date, not
any reading's time of day.  Whenever the UTC offset puts that instant
outside 06:00–18:00 local time, `isDaytime` is false for every bucket, the
night-generation check fires for every bucket whose daily total exceeds
0.01 kWh (so the sensor check suppresses all other detectors for such
buckets), and `detectCompleteFailure`'s daytime precondition is never
satisfied from the orchestrator. -/
theorem bucket_timestamp_midnight_utc (off : ℤ)
    (h : bucketLocalMs off < 6 * 3600000 ∨ 18 * 3600000 < bucketLocalMs off) :
    isDaytime (bucketLocalMs off) = false ∧
    (∀ t cap : ℚ, ∀ rs : List ℚ, t > 0.01 →
      nightIssue ∈ sensorIssues t cap (bucketLocalMs off) rs ∧
      (detectSensorMalfunction t cap (bucketLocalMs off) rs).isSome = true) ∧
    (∀ t cap cc : ℚ, detectCompleteFailure t cap (bucketLocalMs off) cc = none) ∧
    (∀ cap hist t cc p : ℚ, ∀ rs : List ℚ, t > 0.01 →
      ∀ d ∈ dayDetections cap hist rs (bucketLocalMs off) t cc p,
        d.anomalyType = .SENSOR_MALFUNCTION) := by
  have hday : isDaytime (bucketLocalMs off) = false := by
    unfold isDaytime
    rw [decide_eq_false_iff_not]
    intro hc
    rcases h with h | h
    · omega
    · omega
  have hmem : ∀ t cap : ℚ, ∀ rs : List ℚ, t > 0.01 →
      nightIssue ∈ sensorIssues t cap (bucketLocalMs off) rs := by
    intro t cap rs ht
    rw [mem_sensorIssues_iff]
    exact Or.inl ⟨⟨by simp [hday], ht⟩, rfl⟩
  have hsome : ∀ t cap : ℚ, ∀ rs : List ℚ, t > 0.01 →
      (detectSensorMalfunction t cap (bucketLocalMs off) rs).isSome = true :=
    fun t cap rs ht =>
      detectSensorMalfunction_isSome
        (fun he => (List.not_mem_nil _) (he ▸ hmem t cap rs ht))
  have hcf : ∀ t cap cc : ℚ,
      detectCompleteFailure t cap (bucketLocalMs off) cc = none := by
    intro t cap cc
    simp only [detectCompleteFailure]
    apply if_neg
    intro hcond
    rw [hday] at hcond
    exact absurd hcond.1 (by decide)
  refine ⟨hday, fun t cap rs ht => ⟨hmem t cap rs ht, hsome t cap rs ht⟩,
    hcf, ?_⟩
  intro cap hist t cc p rs ht d hd
  obtain ⟨s, hs⟩ := Option.isSome_iff_exists.mp (hsome t cap rs ht)
  rw [dayDetections_of_sensor_fires hs, List.mem_singleton] at hd
  subst hd
  exact detectSensorMalfunction_anomalyType hs

/-- Witness for C1 at a concrete run: unit 1's only bucket trips the
night-generation sensor check (offset 0 puts the bucket timestamp at local
midnight), and the pre-existing COMPLETE_FAILURE record in the store is
the only COMPLETE_FAILURE/WEATHER_RELATED/DEGRADATION record for that
unit and day after the run. -/
theorem sensor_fire_suppresses_other_detectors_witness :
    (⟨1, .COMPLETE_FAILURE, .CRITICAL, .ACTIVE, "2026-10-08", 0.95⟩ :
      AnomalyRec) ∈ demoStore :=
  sensor_fire_suppresses_other_detectors 0 [demoUnit] demoStore demoUnit
    demoBucket (by decide) (by decide) (by decide) (by decide) _
    (by decide) (by decide) (by decide) (Or.inl (by decide))

/-- Witness for C2 at a concrete run on the empty store. -/
theorem run_dedup_invariant_and_idempotent_witness :
    distinctTriples (runAnomalyDetection 0 [demoUnit] []) ∧
    runAnomalyDetection 0 [demoUnit] (runAnomalyDetection 0 [demoUnit] []) =
      runAnomalyDetection 0 [demoUnit] [] :=
  ⟨(run_dedup_invariant_and_idempotent 0 [demoUnit] [] List.Pairwise.nil).1,
   (run_dedup_invariant_and_idempotent 0 [demoUnit] [] List.Pairwise.nil).2.2⟩

/-- Witness for the amended C3: unit 0 succeeds, unit 1's read fails, and
the whole run errors without reaching unit 2. -/
theorem perUnit_error_aborts_run_witness :
    runAnomalyDetectionE demoFetch [0, 1, 2] 0 [] =
      Except.error "store unavailable" :=
  perUnit_error_aborts_run demoFetch [0] 1 [2] 0 [] "store unavailable"
    (fun v hv => by
      rw [List.mem_singleton] at hv
      subst hv
      exact ⟨demoUnitTwo, rfl⟩)
    rfl

/-- Witness for C5 at the spec's Scenario A: 0.02 kWh from a 5 kW panel at
14:00 local with 25 % cloud yields COMPLETE_FAILURE / CRITICAL / 0.95. -/
theorem completeFailure_iff_witness :
    detectCompleteFailure 0.02 5 50400000 25 =
      some ⟨.COMPLETE_FAILURE, .CRITICAL, 0.95, none, []⟩ :=
  (completeFailure_iff 0.02 5 50400000 25 (by decide)).mpr (by decide)

/-- Witness for C7 at a concrete negative reading. -/
theorem negative_reading_forces_critical_witness :
    (detectSensorMalfunction (-1) 5 43200000 []).isSome = true := by
  obtain ⟨d, hd, -, -, -⟩ :=
    negative_reading_forces_critical (-1) 5 43200000 [] (by decide)
  rw [hd]
  rfl

/-- Witness for C9 at the boundary point (100, 100). -/
theorem weather_severity_bounds_witness :
    weatherSeverityScore 100 100 ≤ 0.9 ∧ rainImpact 100 ≤ 0.8 ∧
      weatherSeverityScore 100 100 = 0.9 :=
  weather_severity_bounds 100 100 (by decide) (by decide) (by decide)

/-- Witness for C10 at offset 0 (UTC): the bucket timestamp is local
midnight, so the night check fires for a 5 kWh bucket and the
complete-failure detector cannot fire. -/
theorem bucket_timestamp_midnight_utc_witness :
    isDaytime (bucketLocalMs 0) = false ∧
    nightIssue ∈ sensorIssues 5 5 (bucketLocalMs 0) [] ∧
    detectCompleteFailure 5 5 (bucketLocalMs 0) 25 = none := by
  obtain ⟨h1, h2, h3, -⟩ := bucket_timestamp_midnight_utc 0 (by decide)
  exact ⟨h1, (h2 5 5 [] (by decide)).1, h3 5 5 25⟩

end ConcreteEvaluation

end HybridSolar
